import Mathlib

/-!
A shallow embedding of the asynchronous GPU upload subsystem of
`src/buffer_uploader.cpp` (vk_gltf_viewer), together with proofs of its
chunking, partitioning, locking and error-handling properties.

Machine integers: all sizes and offsets in the C++ source are `std::size_t`
(64-bit) or `std::uint32_t` values; we model them as `Nat` with explicit
wrap-around (`% 2^64`, `% 2^32`) at every arithmetic step where the source
performs unsigned machine arithmetic.

GPU side effects (command recording, queue submission, fence waits, lock
acquisition) are modelled as event traces: each execution path is embedded as
the list of externally visible actions it performs, in program order.
-/

/-- 2^64, the modulus of `std::size_t` / `VkDeviceSize` arithmetic. -/
def M : Nat := 2 ^ 64

/-- 2^32, the modulus of `std::uint32_t` arithmetic. -/
def M32 : Nat := 2 ^ 32

/-- 64-bit unsigned addition. -/
def uadd (a b : Nat) : Nat := (a + b) % M

/-- 64-bit unsigned subtraction (wraps on underflow). -/
def usub (a b : Nat) : Nat := (a % M + (M - b % M)) % M

/-- 64-bit unsigned multiplication. -/
def umul (a b : Nat) : Nat := a * b % M

/-- 32-bit unsigned subtraction (wraps on underflow). -/
def usub32 (a b : Nat) : Nat := (a % M32 + (M32 - b % M32)) % M32

/-- 32-bit unsigned multiplication. -/
def umul32 (a b : Nat) : Nat := a * b % M32

/-- Result codes of Vulkan entry points, as far as the embedding needs to
distinguish them. -/
inductive VkResult where
  | success
  | timeout
  | errorDeviceLost
  | errorOutOfDeviceMemory
deriving DecidableEq, Repr

/-- Modelled from the spec: `vk::checkResult` comes from `vulkan/debug_utils.hpp`,
which is not among the sources. The spec describes every checked failure as
fatal ("process-level abort via the underlying API's error-check path"), so we
model it as `Except.error` on any non-success result and `Except.ok` on success. -/
def checkResult (r : VkResult) (msg : String) : Except String Unit :=
  if r = VkResult.success then Except.ok () else Except.error msg

/-- `VK_IMAGE_LAYOUT_UNDEFINED` (Vulkan enum value 0). -/
def VK_IMAGE_LAYOUT_UNDEFINED : Nat := 0

/-- `VK_IMAGE_LAYOUT_TRANSFER_DST_OPTIMAL` (Vulkan enum value 7). -/
def VK_IMAGE_LAYOUT_TRANSFER_DST_OPTIMAL : Nat := 7

/-- `enki::TaskSetPartition`: a half-open range of task indices. The C++ field
`end` is a Lean keyword, so it is named `stop` here. Both fields are
`std::uint32_t`. -/
structure TaskSetPartition where
  start : Nat
  stop : Nat
deriving DecidableEq, Repr

/-- A GPU command recorded into a command buffer by the upload paths. -/
inductive Command where
  | copyBuffer (srcOffset dstOffset size : Nat)
  | pipelineBarrier (oldLayout newLayout : Nat)
  | copyBufferToImage (bufferOffset offsetY extentW extentH extentD dstLayout : Nat)
deriving DecidableEq, Repr

/-- An externally visible action performed by an upload execution path. -/
inductive Event where
  | memcpyToStaging (offset len : Nat)
  | resetFence (thread : Nat)
  | resetCommandBuffer (thread : Nat)
  | record (c : Command)
  | acquireLock (q : Nat)
  | submit (q : Nat)
  | releaseLock (q : Nat)
  | waitFence (thread : Nat)
deriving DecidableEq, Repr

/-- Extract the command recorded by an event, if any. -/
def Event.recordedCommand : Event → Option Command
  | Event.record c => some c
  | _ => none

/-- Extract the queue index of a submission event, if any. -/
def Event.submittedQueue : Event → Option Nat
  | Event.submit q => some q
  | _ => none

/-- Modelled from the spec: `BufferUploader::getNextQueueHandle` is declared in
`vk_gltf_viewer/buffer_uploader.hpp`, which is not among the sources. The spec
describes it as round-robin selection over the queue set via a shared,
atomically advanced counter, so the queue picked by the call with counter value
`counter` is the counter modulo the queue count; the counter advances by one
per call. -/
def getNextQueueIndex (queueCount counter : Nat) : Nat := counter % queueCount

/-- The locking discipline checker: walks a trace maintaining the list of held
queue locks. A `submit q` is legal only while `q`'s lock is held; a
`waitFence` is legal only while no lock is held; `acquireLock`/`releaseLock`
push and pop the held set. -/
def lockCheck : List Event → List Nat → Bool
  | [], _ => true
  | Event.acquireLock q :: rest, held => lockCheck rest (q :: held)
  | Event.releaseLock q :: rest, held => held.contains q && lockCheck rest (held.erase q)
  | Event.submit q :: rest, held => held.contains q && lockCheck rest held
  | Event.waitFence _ :: rest, held => held.isEmpty && lockCheck rest held
  | _ :: rest, held => lockCheck rest held

namespace BufferUploadTask

/-- `BufferUploadTask::BufferUploadTask`, line 12 of `buffer_uploader.cpp`:
`m_SetSize = (data.size_bytes() + uploader.getStagingBufferSize() - 1) / uploader.getStagingBufferSize()`
in `std::size_t` arithmetic. `L` is the source span's byte length, `C` the
staging-buffer capacity. -/
def setSize (L C : Nat) : Nat := usub (uadd L C) 1 / C

/-- Line 24: the sub-span offset `i * stagingBufferSize` passed to
`data.subspan` (`std::size_t` multiplication). -/
def subOffset (C i : Nat) : Nat := umul i C

/-- Line 23: `util::min(data.size_bytes() - i * stagingBufferSize, stagingBufferSize)`
in `std::size_t` arithmetic. -/
def subLength (L C i : Nat) : Nat := min (usub L (subOffset C i)) C

/-- Chunk membership: byte `b` of the source span lies in the sub-span that
chunk `i` processes (the `data.subspan(i * stagingBufferSize, subLength)` of
line 24). -/
def inChunk (L C i b : Nat) : Prop :=
  subOffset C i ≤ b ∧ b < subOffset C i + subLength L C i

/-- Lines 46–51: the `VkBufferCopy` region recorded for chunk `i`:
`srcOffset = 0`, `dstOffset = i * stagingBufferSize`, `size = sub.size_bytes()`. -/
def copyRegion (L C i : Nat) : Command :=
  Command.copyBuffer 0 (subOffset C i) (subLength L C i)

/-- One iteration of the loop in `BufferUploadTask::ExecuteRange`
(lines 18–74), as the trace of its externally visible actions in program
order: copy into the staging slot (lines 27–31), reset the fence and command
buffer (lines 37–38), record the copy command (lines 46–51), acquire the
round-robin queue's lock, submit, release (lines 55–70), wait on the fence
(line 73). -/
def chunkTrace (L C queueCount threadnum counter i : Nat) : List Event :=
  [ Event.memcpyToStaging (subOffset C i) (subLength L C i),
    Event.resetFence threadnum,
    Event.resetCommandBuffer threadnum,
    Event.record (copyRegion L C i),
    Event.acquireLock (getNextQueueIndex queueCount counter),
    Event.submit (getNextQueueIndex queueCount counter),
    Event.releaseLock (getNextQueueIndex queueCount counter),
    Event.waitFence threadnum ]

/-- The loop of `BufferUploadTask::ExecuteRange`, unrolled with fuel `n`
(the number of remaining iterations): chunk `i` runs with the current
round-robin counter value, then the loop continues with `i + 1` and the
counter advanced by one. -/
def loopFrom (L C queueCount threadnum : Nat) : Nat → Nat → Nat → List Event
  | _, _, 0 => []
  | counter, i, n + 1 =>
    chunkTrace L C queueCount threadnum counter i ++
      loopFrom L C queueCount threadnum (counter + 1) (i + 1) n

/-- `BufferUploadTask::ExecuteRange(range, threadnum)` (lines 15–75): iterates
`for (auto i = range.start; i < range.end; ++i)`, i.e. `range.stop - range.start`
iterations starting at `range.start`. `counter` is the round-robin counter
value at entry. -/
def executeRange (L C queueCount threadnum counter : Nat)
    (range : TaskSetPartition) : List Event :=
  loopFrom L C queueCount threadnum counter range.start (range.stop - range.start)

/-- Lines 68–73 of `BufferUploadTask::ExecuteRange`: the `vkQueueSubmit` result
is passed to `vk::checkResult` (fatal on failure), while the result of the
subsequent `vkWaitForFences` call on line 73 is discarded — no branch of the
function inspects it. -/
def submitAndWait (submitResult waitResult : VkResult) : Except String Unit :=
  match checkResult submitResult "Failed to submit buffer copy: \x7b\x7d" with
  | Except.error e => Except.error e
  | Except.ok _ =>
    -- line 73: `vkWaitForFences(uploader.device, 1, &fence, VK_TRUE, 9999999999);`
    -- the returned VkResult (waitResult) is not bound or tested
    Except.ok ()

end BufferUploadTask

/-- The state of a `BufferUploadTask` as constructed by its constructor
(lines 9–13): the borrowed span length and the derived range count. -/
structure BufferUploadTaskState where
  dataLen : Nat
  m_SetSize : Nat
deriving DecidableEq, Repr

/-- `BufferUploadTask::BufferUploadTask(std::span<const std::byte>, VkBuffer)`
(lines 9–13): stores the span and derives `m_SetSize` from the uploader's
staging buffer size. -/
def BufferUploadTask.construct (dataLen stagingBufferSize : Nat) : BufferUploadTaskState :=
  { dataLen := dataLen, m_SetSize := BufferUploadTask.setSize dataLen stagingBufferSize }

/-- `BufferUploader::uploadToBuffer` (lines 276–280): constructs a
`BufferUploadTask` from the span and hands it to the scheduler; the task it
submits and returns is exactly the one the constructor builds. -/
def BufferUploader.uploadToBuffer (dataLen stagingBufferSize : Nat) : BufferUploadTaskState :=
  BufferUploadTask.construct dataLen stagingBufferSize

/-- The state of an `ImageUploadTask` as constructed by its constructor
(lines 77–81): the borrowed span, image geometry, destination layout, and the
derived scheduler parameters `m_SetSize` (total range, in rows) and
`m_MinRange` (`util::min(150U, imageExtent.height)`). -/
structure ImageUploadTaskState where
  dataLen : Nat
  width : Nat
  height : Nat
  channelCount : Nat
  destinationLayout : Nat
  m_SetSize : Nat
  m_MinRange : Nat
deriving DecidableEq, Repr

namespace ImageUploadTask

/-- `ImageUploadTask::ImageUploadTask` (lines 77–81): `m_SetSize = imageExtent.height`,
`m_MinRange = util::min(150U, imageExtent.height)`. -/
def construct (dataLen width height destinationLayout channelCount : Nat) :
    ImageUploadTaskState :=
  { dataLen := dataLen, width := width, height := height,
    channelCount := channelCount, destinationLayout := destinationLayout,
    m_SetSize := height, m_MinRange := min 150 height }

/-- Line 92: the source byte offset `range.start * imageExtent.width * channelCount`;
the first multiplication is `std::uint32_t`, the second `std::size_t`. -/
def subOffset (W c start : Nat) : Nat := umul (umul32 start W) c

/-- Line 91: `(range.end - range.start) * imageExtent.width * channelCount`;
the subtraction and first multiplication are `std::uint32_t`, the second
multiplication `std::size_t`. -/
def subLength (W c start stop : Nat) : Nat := umul (umul32 (usub32 stop start) W) c

/-- Byte-span membership: byte `b` of the source span lies in the sub-span the
partition `p` copies (the `data.subspan(...)` of line 92). -/
def inByteSpan (W c : Nat) (p : TaskSetPartition) (b : Nat) : Prop :=
  subOffset W c p.start ≤ b ∧ b < subOffset W c p.start + subLength W c p.start p.stop

/-- `ImageUploadTask::ExecuteRange(range, threadnum)` (lines 83–188), as the
trace of its externally visible actions in program order: copy the row range's
bytes into the staging slot (lines 91–98), reset the fence and command buffer
(lines 103–104), record the undefined → transfer-destination layout barrier
(lines 112–135), record the buffer-to-image copy at `y = range.start`, full
width, `range.end - range.start` rows, from staging offset 0 (lines 137–156),
record the transfer-destination → `destinationLayout` barrier (lines 158–165),
then acquire the round-robin queue's lock, submit, release (lines 169–184),
and wait on the fence (line 187). -/
def executeRange (W c destinationLayout queueCount threadnum counter : Nat)
    (range : TaskSetPartition) : List Event :=
  [ Event.memcpyToStaging (subOffset W c range.start) (subLength W c range.start range.stop),
    Event.resetFence threadnum,
    Event.resetCommandBuffer threadnum,
    Event.record (Command.pipelineBarrier VK_IMAGE_LAYOUT_UNDEFINED
      VK_IMAGE_LAYOUT_TRANSFER_DST_OPTIMAL),
    Event.record (Command.copyBufferToImage 0 range.start W (usub32 range.stop range.start) 1
      VK_IMAGE_LAYOUT_TRANSFER_DST_OPTIMAL),
    Event.record (Command.pipelineBarrier VK_IMAGE_LAYOUT_TRANSFER_DST_OPTIMAL
      destinationLayout),
    Event.acquireLock (getNextQueueIndex queueCount counter),
    Event.submit (getNextQueueIndex queueCount counter),
    Event.releaseLock (getNextQueueIndex queueCount counter),
    Event.waitFence threadnum ]

/-- Lines 182–187 of `ImageUploadTask::ExecuteRange`: the `vkQueueSubmit`
result is passed to `vk::checkResult` (fatal on failure), while the result of
the subsequent `vkWaitForFences` call on line 187 is discarded. -/
def submitAndWait (submitResult waitResult : VkResult) : Except String Unit :=
  match checkResult submitResult "Failed to submit image copy: \x7b\x7d" with
  | Except.error e => Except.error e
  | Except.ok _ =>
    -- line 187: the returned VkResult (waitResult) is not bound or tested
    Except.ok ()

end ImageUploadTask

/-- Modelled from the spec: `util::alignDown` comes from
`vk_gltf_viewer/util.hpp`, which is not among the sources. The spec describes
the computation as "round down to a multiple of thread count", i.e.
`x / n * n`. -/
def alignDown (x n : Nat) : Nat := x / n * n

/-- Line 206: `static_cast<std::size_t>(224395264U * 0.5)`. 224395264 is even
and exactly representable in an IEEE double, so halving it is exact and the
cast yields exactly 112197632. -/
def memoryBudget : Nat := 112197632

namespace BufferUploader

/-- Lines 202–206: `totalSize = util::alignDown(static_cast<std::size_t>(224395264U * 0.5), threadCount)`. -/
def totalSize (threadCount : Nat) : Nat := alignDown memoryBudget threadCount

/-- Line 207: `stagingBufferSize = totalSize / threadCount`. -/
def stagingBufferSize (threadCount : Nat) : Nat := totalSize threadCount / threadCount

/-- Lines 241–260: `stagingBuffers` is resized to `hardware_concurrency()`
elements and each element is created with `bufferCreateInfo.size = stagingBufferSize`
(line 252); this is the list of created staging-buffer capacities. -/
def stagingBufferSizes (threadCount : Nat) : List Nat :=
  List.replicate threadCount (stagingBufferSize threadCount)

/-- Lines 210–228 of `BufferUploader::init`: per thread, create a command pool
(checked, fatal on failure) then allocate its command buffer (checked, fatal
on failure). The oracle functions give each Vulkan call's result. -/
def initPoolLoop (poolResult cmdBufResult : Nat → VkResult) : Nat → Except String Unit
  | 0 => Except.ok ()
  | n + 1 =>
    match initPoolLoop poolResult cmdBufResult n with
    | Except.error e => Except.error e
    | Except.ok _ =>
      match checkResult (poolResult n) "Failed to allocate buffer upload command pool: \x7b\x7d" with
      | Except.error e => Except.error e
      | Except.ok _ =>
        checkResult (cmdBufResult n) "Failed to allocate buffer upload command buffers: \x7b\x7d"

/-- Lines 230–239 of `BufferUploader::init`: per thread, create the submit
fence (checked, fatal on failure). -/
def initFenceLoop (fenceResult : Nat → VkResult) : Nat → Except String Unit
  | 0 => Except.ok ()
  | n + 1 =>
    match initFenceLoop fenceResult n with
    | Except.error e => Except.error e
    | Except.ok _ => checkResult (fenceResult n) "Failed to create buffer upload fence: \x7b\x7d"

/-- Lines 241–260 of `BufferUploader::init`: per thread, create the staging
buffer (checked, fatal on failure). -/
def initStagingLoop (stagingResult : Nat → VkResult) : Nat → Except String Unit
  | 0 => Except.ok ()
  | n + 1 =>
    match initStagingLoop stagingResult n with
    | Except.error e => Except.error e
    | Except.ok _ => checkResult (stagingResult n) "Failed to allocate staging buffer: \x7b\x7d"

/-- `BufferUploader::init` (lines 190–262): runs the three checked resource
loops (command pools + command buffers, fences, staging buffers) and, if none
of them aborted, executes `return true` (line 261). `vkGetDeviceQueue`
(line 199) returns no result and so contributes nothing checkable. -/
def init (threadCount : Nat)
    (poolResult cmdBufResult fenceResult stagingResult : Nat → VkResult) :
    Except String Bool :=
  match initPoolLoop poolResult cmdBufResult threadCount with
  | Except.error e => Except.error e
  | Except.ok _ =>
    match initFenceLoop fenceResult threadCount with
    | Except.error e => Except.error e
    | Except.ok _ =>
      match initStagingLoop stagingResult threadCount with
      | Except.error e => Except.error e
      | Except.ok _ => Except.ok true

end BufferUploader

/-! ## Arithmetic bridging lemmas -/

theorem usub_of_le {a b : Nat} (hba : b ≤ a) (ha : a < M) : usub a b = a - b := by
  have hb : b < M := lt_of_le_of_lt hba ha
  unfold usub
  rw [Nat.mod_eq_of_lt ha, Nat.mod_eq_of_lt hb]
  have h1 : a + (M - b) = (a - b) + M := by omega
  rw [h1, Nat.add_mod_right, Nat.mod_eq_of_lt (by omega)]

theorem umul_of_lt {a b : Nat} (h : a * b < M) : umul a b = a * b := by
  unfold umul; exact Nat.mod_eq_of_lt h

theorem usub32_of_le {a b : Nat} (hba : b ≤ a) (ha : a < M32) : usub32 a b = a - b := by
  have hb : b < M32 := lt_of_le_of_lt hba ha
  unfold usub32
  rw [Nat.mod_eq_of_lt ha, Nat.mod_eq_of_lt hb]
  have h1 : a + (M32 - b) = (a - b) + M32 := by omega
  rw [h1, Nat.add_mod_right, Nat.mod_eq_of_lt (by omega)]

theorem umul32_of_lt {a b : Nat} (h : a * b < M32) : umul32 a b = a * b := by
  unfold umul32; exact Nat.mod_eq_of_lt h

theorem setSize_eq_ceil_formula {L C : Nat} (hC : 0 < C) (hM : L + C ≤ M) :
    BufferUploadTask.setSize L C = (L + C - 1) / C := by
  unfold BufferUploadTask.setSize uadd
  rcases Nat.lt_or_ge (L + C) M with h | h
  · rw [Nat.mod_eq_of_lt h, usub_of_le (by omega) h]
  · have hEq : L + C = M := le_antisymm hM h
    rw [hEq, Nat.mod_self]
    unfold usub
    have h1 : (0 : Nat) % M = 0 := Nat.zero_mod M
    have h2 : (1 : Nat) % M = 1 := by decide
    rw [h1, h2, Nat.zero_add, Nat.mod_eq_of_lt (by omega)]

theorem ceil_formula_spec {L C : Nat} (hC : 0 < C) :
    L ≤ ((L + C - 1) / C) * C ∧ ∀ n, L ≤ n * C → (L + C - 1) / C ≤ n := by
  constructor
  · rcases Nat.eq_zero_or_pos L with hL | hL
    · simp [hL]
    · have hdm : C * ((L + C - 1) / C) + (L + C - 1) % C = L + C - 1 :=
        Nat.div_add_mod _ _
      have hmlt : (L + C - 1) % C < C := Nat.mod_lt _ hC
      have hcm : ((L + C - 1) / C) * C = C * ((L + C - 1) / C) := Nat.mul_comm _ _
      omega
  · intro n hn
    have h1 : L + C - 1 ≤ n * C + C - 1 := by omega
    have h2 : (n * C + C - 1) / C = n + (C - 1) / C := by
      have h : n * C + C - 1 = (C - 1) + C * n := by
        have : n * C = C * n := Nat.mul_comm _ _
        omega
      rw [h, Nat.add_mul_div_left _ _ hC, Nat.add_comm]
    have h3 : (C - 1) / C = 0 := Nat.div_eq_of_lt (by omega)
    calc (L + C - 1) / C ≤ (n * C + C - 1) / C := Nat.div_le_div_right h1
      _ = n := by rw [h2, h3]; omega

theorem chunk_bounds {L C i : Nat} (hC : 0 < C) (hM : L + C ≤ M)
    (hi : i < BufferUploadTask.setSize L C) :
    BufferUploadTask.subOffset C i = i * C ∧ i * C < L ∧
    BufferUploadTask.subLength L C i = min (L - i * C) C := by
  rw [setSize_eq_ceil_formula hC hM] at hi
  have hL : 0 < L := by
    by_contra h
    have : L = 0 := by omega
    subst this
    rw [Nat.div_eq_of_lt (by omega)] at hi
    omega
  have h1 : i + 1 ≤ (L + C - 1) / C := hi
  have h2 : (i + 1) * C ≤ L + C - 1 := (Nat.le_div_iff_mul_le hC).mp h1
  have h3 : i * C < L := by
    have : (i + 1) * C = i * C + C := Nat.succ_mul i C
    omega
  have h4 : i * C < M := lt_of_lt_of_le h3 (by omega)
  have h5 : BufferUploadTask.subOffset C i = i * C := umul_of_lt h4
  refine ⟨h5, h3, ?_⟩
  unfold BufferUploadTask.subLength
  rw [h5, usub_of_le (le_of_lt h3) (by omega)]

/-- C1: the sub-spans processed by the chunks of a `BufferUploadTask` —
chunk `i` starting at `i * C` with length `min(L - i * C, C)`, for
`i < ceil(L / C)` — are pairwise disjoint and their union is exactly
`[0, L)`: every byte below `L` lies in exactly one chunk, and no chunk
contains a byte at or beyond `L`. Moreover, for `L = 10` MiB and
`C = 3` MiB there are 4 chunks of sizes 3, 3, 3 and 1 MiB. -/
theorem bufferUpload_chunks_partition {L C : Nat} (hC : 0 < C) (hM : L + C ≤ M) :
    (∀ b, b < L ↔
      ∃! i, i < BufferUploadTask.setSize L C ∧ BufferUploadTask.inChunk L C i b) ∧
    BufferUploadTask.setSize 10485760 3145728 = 4 ∧
    (List.range 4).map (BufferUploadTask.subLength 10485760 3145728) =
      [3145728, 3145728, 3145728, 1048576] := by
  refine ⟨?_, by decide, by decide⟩
  intro b
  constructor
  · intro hb
    have hidx : b / C < BufferUploadTask.setSize L C := by
      rw [setSize_eq_ceil_formula hC hM]
      have hL : 0 < L := by omega
      have h1 : L + C - 1 = (L - 1) + C := by omega
      rw [h1, Nat.add_div_right _ hC]
      have h2 : b / C ≤ (L - 1) / C := Nat.div_le_div_right (by omega)
      omega
    obtain ⟨ho, hlt, hsl⟩ := chunk_bounds hC hM hidx
    refine ⟨b / C, ⟨hidx, ?_⟩, ?_⟩
    · unfold BufferUploadTask.inChunk
      rw [ho, hsl]
      have hdm : C * (b / C) + b % C = b := Nat.div_add_mod b C
      have hmlt : b % C < C := Nat.mod_lt _ hC
      have hcm : b / C * C = C * (b / C) := Nat.mul_comm _ _
      omega
    · rintro j ⟨hj, hjin⟩
      obtain ⟨ho', hlt', hsl'⟩ := chunk_bounds hC hM hj
      unfold BufferUploadTask.inChunk at hjin
      rw [ho', hsl'] at hjin
      have hup : b < (j + 1) * C := by
        have : (j + 1) * C = j * C + C := Nat.succ_mul j C
        omega
      exact (Nat.div_eq_of_lt_le hjin.1 hup).symm
  · rintro ⟨i, ⟨hi, hin⟩, _⟩
    obtain ⟨ho, hlt, hsl⟩ := chunk_bounds hC hM hi
    unfold BufferUploadTask.inChunk at hin
    rw [ho, hsl] at hin
    omega

theorem bufferUpload_chunks_partition_witness :
    0 < 3 ∧ 10 + 3 ≤ M ∧
    (∀ b, b < 10 ↔
      ∃! i, i < BufferUploadTask.setSize 10 3 ∧ BufferUploadTask.inChunk 10 3 i b) :=
  ⟨by decide, by decide, (bufferUpload_chunks_partition (by decide) (by decide)).1⟩

/-- C2: `BufferUploader::uploadToBuffer` constructs a `BufferUploadTask` whose
`m_SetSize` is `(L + C - 1) / C` in integer arithmetic, which is exactly
`ceil(L / C)`: it is the least `n` with `L ≤ n * C`. -/
theorem uploadToBuffer_setSize_is_ceil {L C : Nat} (hC : 0 < C) (hM : L + C ≤ M) :
    (BufferUploader.uploadToBuffer L C).m_SetSize = (L + C - 1) / C ∧
    L ≤ (BufferUploader.uploadToBuffer L C).m_SetSize * C ∧
    ∀ n, L ≤ n * C → (BufferUploader.uploadToBuffer L C).m_SetSize ≤ n := by
  have h : (BufferUploader.uploadToBuffer L C).m_SetSize = BufferUploadTask.setSize L C := rfl
  rw [h, setSize_eq_ceil_formula hC hM]
  exact ⟨rfl, (ceil_formula_spec hC).1, (ceil_formula_spec hC).2⟩

theorem uploadToBuffer_setSize_is_ceil_witness :
    0 < 3 ∧ 10 + 3 ≤ M ∧ (BufferUploader.uploadToBuffer 10 3).m_SetSize = (10 + 3 - 1) / 3 :=
  ⟨by decide, by decide, (uploadToBuffer_setSize_is_ceil (by decide) (by decide)).1⟩

/-- C4 counterexample: constructing a `BufferUploadTask` from a zero-length
span with staging capacity 3 yields `m_SetSize = (0 + 3 - 1) / 3 = 0`, so the
claimed invariant "range count ≥ 1 even for a zero-length span" fails. -/
theorem construct_empty_setSize_not_pos :
    ¬ (1 ≤ (BufferUploadTask.construct 0 3).m_SetSize) := by decide

/-- C4 (amended): the derived range count of a `BufferUploadTask` is at least 1
exactly when the source span is non-empty; a zero-length span yields range
count 0. -/
theorem construct_setSize_pos_iff {L C : Nat} (hC : 0 < C) (hM : L + C ≤ M) :
    1 ≤ (BufferUploadTask.construct L C).m_SetSize ↔ 0 < L := by
  have h : (BufferUploadTask.construct L C).m_SetSize = BufferUploadTask.setSize L C := rfl
  rw [h, setSize_eq_ceil_formula hC hM, Nat.le_div_iff_mul_le hC]
  omega

theorem construct_setSize_pos_iff_witness :
    0 < 3 ∧ 5 + 3 ≤ M ∧ (1 ≤ (BufferUploadTask.construct 5 3).m_SetSize ↔ 0 < 5) :=
  ⟨by decide, by decide, construct_setSize_pos_iff (by decide) (by decide)⟩

/-- C3: for every chunk index `i` executed by a `BufferUploadTask` (i.e.
`i < m_SetSize`), the recorded copy command reads from the staging buffer at
source offset 0, writes to the destination buffer at offset `i * C`, and has
size `min(L - i * C, C)`; it is the only command the chunk records. -/
theorem bufferUpload_copyRegion_spec {L C queueCount threadnum counter i : Nat}
    (hC : 0 < C) (hM : L + C ≤ M) (hi : i < BufferUploadTask.setSize L C) :
    BufferUploadTask.copyRegion L C i =
      Command.copyBuffer 0 (i * C) (min (L - i * C) C) ∧
    (BufferUploadTask.chunkTrace L C queueCount threadnum counter i).filterMap
      Event.recordedCommand = [BufferUploadTask.copyRegion L C i] := by
  obtain ⟨ho, hlt, hsl⟩ := chunk_bounds hC hM hi
  constructor
  · unfold BufferUploadTask.copyRegion
    rw [ho, hsl]
  · simp [BufferUploadTask.chunkTrace, Event.recordedCommand]

theorem bufferUpload_copyRegion_spec_witness :
    0 < 3 ∧ 10 + 3 ≤ M ∧ 2 < BufferUploadTask.setSize 10 3 ∧
    BufferUploadTask.copyRegion 10 3 2 = Command.copyBuffer 0 (2 * 3) (min (10 - 2 * 3) 3) :=
  ⟨by decide, by decide, by decide,
    (@bufferUpload_copyRegion_spec 10 3 1 0 0 2 (by decide) (by decide) (by decide)).1⟩

/-- C5 counterexample: with a successful queue submit and a fence wait that
returns `timeout`, both the raw-buffer and the image upload paths complete
normally — the process does not abort on a fence-wait timeout. -/
theorem fenceWaitTimeout_not_fatal :
    BufferUploadTask.submitAndWait VkResult.success VkResult.timeout = Except.ok () ∧
    ImageUploadTask.submitAndWait VkResult.success VkResult.timeout = Except.ok () :=
  ⟨rfl, rfl⟩

/-- C5 (amended): in both upload variants the result of the fence wait after a
chunk's queue submission is discarded — after a successful submit, execution
completes normally whatever the wait returns (timeout and device-loss
included); only a failed queue submit is fatal. -/
theorem fenceWaitResult_ignored :
    ∀ w : VkResult,
      BufferUploadTask.submitAndWait VkResult.success w = Except.ok () ∧
      ImageUploadTask.submitAndWait VkResult.success w = Except.ok () ∧
      ∀ s : VkResult, s ≠ VkResult.success →
        BufferUploadTask.submitAndWait s w =
          Except.error "Failed to submit buffer copy: \x7b\x7d" := by
  intro w
  refine ⟨rfl, rfl, ?_⟩
  intro s hs
  unfold BufferUploadTask.submitAndWait checkResult
  rw [if_neg hs]

/-- C6: during initialization the staging-slot capacity is the fixed memory
budget rounded down to a multiple of the hardware thread count and then
divided by the thread count; every created staging buffer has exactly this
capacity, and `threadCount * capacity = alignDown(budget, threadCount) ≤ budget`. -/
theorem init_stagingBufferSize_spec {threadCount : Nat} (ht : 0 < threadCount) :
    (∀ s ∈ BufferUploader.stagingBufferSizes threadCount,
        s = BufferUploader.stagingBufferSize threadCount) ∧
    threadCount * BufferUploader.stagingBufferSize threadCount
      = alignDown memoryBudget threadCount ∧
    alignDown memoryBudget threadCount ≤ memoryBudget := by
  refine ⟨?_, ?_, ?_⟩
  · intro s hs
    exact List.eq_of_mem_replicate hs
  · unfold BufferUploader.stagingBufferSize BufferUploader.totalSize alignDown
    rw [Nat.mul_div_cancel (memoryBudget / threadCount) ht, Nat.mul_comm]
  · unfold alignDown
    exact Nat.div_mul_le_self _ _

theorem init_stagingBufferSize_spec_witness :
    0 < 8 ∧ 8 * BufferUploader.stagingBufferSize 8 = alignDown memoryBudget 8 :=
  ⟨by decide, (init_stagingBufferSize_spec (by decide)).2.1⟩

/-- C10: whenever `BufferUploader::init` returns at all (no checked Vulkan call
aborted), its boolean return value is `true`: the return value never signals
failure; every resource-allocation failure is surfaced only through the fatal
error-check path. -/
theorem init_returns_true {threadCount : Nat}
    {poolResult cmdBufResult fenceResult stagingResult : Nat → VkResult} {b : Bool}
    (h : BufferUploader.init threadCount poolResult cmdBufResult fenceResult stagingResult
          = Except.ok b) :
    b = true := by
  unfold BufferUploader.init at h
  split at h
  · exact Except.noConfusion h
  · split at h
    · exact Except.noConfusion h
    · split at h
      · exact Except.noConfusion h
      · exact (Except.ok.inj h).symm

theorem init_returns_true_witness :
    BufferUploader.init 2 (fun _ => VkResult.success) (fun _ => VkResult.success)
        (fun _ => VkResult.success) (fun _ => VkResult.success) = Except.ok true ∧
    true = true :=
  ⟨rfl, @init_returns_true 2 (fun _ => VkResult.success) (fun _ => VkResult.success)
    (fun _ => VkResult.success) (fun _ => VkResult.success) true rfl⟩

theorem lockCheck_chunkTrace_append (L C queueCount threadnum counter i : Nat)
    (rest : List Event) :
    lockCheck (BufferUploadTask.chunkTrace L C queueCount threadnum counter i ++ rest) []
      = lockCheck rest [] := by
  simp [BufferUploadTask.chunkTrace, lockCheck]

theorem lockCheck_loopFrom (L C queueCount threadnum : Nat) :
    ∀ n counter i,
      lockCheck (BufferUploadTask.loopFrom L C queueCount threadnum counter i n) [] = true := by
  intro n
  induction n with
  | zero => intro counter i; rfl
  | succ n ih =>
    intro counter i
    rw [BufferUploadTask.loopFrom, lockCheck_chunkTrace_append]
    exact ih (counter + 1) (i + 1)

theorem submits_chunkTrace (L C queueCount threadnum counter i : Nat) :
    (BufferUploadTask.chunkTrace L C queueCount threadnum counter i).filterMap
        Event.submittedQueue = [getNextQueueIndex queueCount counter] := by
  simp [BufferUploadTask.chunkTrace, Event.submittedQueue]

theorem submits_loopFrom (L C queueCount threadnum : Nat) :
    ∀ n counter i,
      (BufferUploadTask.loopFrom L C queueCount threadnum counter i n).filterMap
          Event.submittedQueue
        = (List.range n).map (fun k => getNextQueueIndex queueCount (counter + k)) := by
  intro n
  induction n with
  | zero => intro counter i; rfl
  | succ n ih =>
    intro counter i
    rw [BufferUploadTask.loopFrom, List.filterMap_append, submits_chunkTrace,
      ih (counter + 1) (i + 1), List.range_succ_eq_map, List.map_cons, List.map_map,
      List.singleton_append]
    have hhead : getNextQueueIndex queueCount (counter + 0)
        = getNextQueueIndex queueCount counter := by rw [Nat.add_zero]
    rw [hhead]
    congr 1
    apply List.map_congr_left
    intro k _
    show getNextQueueIndex queueCount (counter + 1 + k)
      = getNextQueueIndex queueCount (counter + Nat.succ k)
    exact congrArg (getNextQueueIndex queueCount) (by omega)

/-- C9: in both upload variants no queue submission ever happens without
holding that queue's lock, the lock is released before the fence wait (the
trace of every execution satisfies the locking discipline `lockCheck`,
which demands a `submit q` occur only while `q`'s lock is held and a fence
wait occur only while no lock is held), and the queue used for the `k`-th
chunk is selected round-robin: it is queue `(counter + k) % queueCount`. -/
theorem queueSubmit_locked_and_roundRobin
    (L C queueCount threadnum counter : Nat) (range : TaskSetPartition)
    (W c destinationLayout : Nat) :
    lockCheck (BufferUploadTask.executeRange L C queueCount threadnum counter range) [] = true ∧
    (BufferUploadTask.executeRange L C queueCount threadnum counter range).filterMap
        Event.submittedQueue
      = (List.range (range.stop - range.start)).map
          (fun k => (counter + k) % queueCount) ∧
    lockCheck (ImageUploadTask.executeRange W c destinationLayout queueCount threadnum
        counter range) [] = true ∧
    (ImageUploadTask.executeRange W c destinationLayout queueCount threadnum counter
        range).filterMap Event.submittedQueue = [counter % queueCount] := by
  refine ⟨lockCheck_loopFrom L C queueCount threadnum _ counter range.start, ?_, ?_, ?_⟩
  · exact submits_loopFrom L C queueCount threadnum _ counter range.start
  · simp [ImageUploadTask.executeRange, lockCheck]
  · simp [ImageUploadTask.executeRange, Event.submittedQueue, getNextQueueIndex]

/-- C8: every `ImageUploadTask` partition records exactly three commands, in
order: a layout transition of the destination image from undefined to
transfer-destination layout, a buffer-to-image copy of `end − start` rows at
vertical offset `y = start` (full width, depth 1, from staging-buffer
offset 0), and a layout transition from transfer-destination layout to the
caller-specified final layout. -/
theorem imageUpload_records_three_commands
    {W c destinationLayout queueCount threadnum counter : Nat} {range : TaskSetPartition}
    (hle : range.start ≤ range.stop) (h32 : range.stop < M32) :
    (ImageUploadTask.executeRange W c destinationLayout queueCount threadnum counter
        range).filterMap Event.recordedCommand =
      [ Command.pipelineBarrier VK_IMAGE_LAYOUT_UNDEFINED
          VK_IMAGE_LAYOUT_TRANSFER_DST_OPTIMAL,
        Command.copyBufferToImage 0 range.start W (range.stop - range.start) 1
          VK_IMAGE_LAYOUT_TRANSFER_DST_OPTIMAL,
        Command.pipelineBarrier VK_IMAGE_LAYOUT_TRANSFER_DST_OPTIMAL destinationLayout ] := by
  simp [ImageUploadTask.executeRange, Event.recordedCommand, usub32_of_le hle h32]

theorem imageUpload_records_three_commands_witness :
    (100 : Nat) ≤ 250 ∧ (250 : Nat) < M32 ∧
    (ImageUploadTask.executeRange 512 1 5 2 0 0 ⟨100, 250⟩).filterMap
        Event.recordedCommand =
      [ Command.pipelineBarrier VK_IMAGE_LAYOUT_UNDEFINED
          VK_IMAGE_LAYOUT_TRANSFER_DST_OPTIMAL,
        Command.copyBufferToImage 0 100 512 150 1 VK_IMAGE_LAYOUT_TRANSFER_DST_OPTIMAL,
        Command.pipelineBarrier VK_IMAGE_LAYOUT_TRANSFER_DST_OPTIMAL 5 ] :=
  ⟨by decide, by decide,
    @imageUpload_records_three_commands 512 1 5 2 0 0 ⟨100, 250⟩ (by decide) (by decide)⟩

instance (W c : Nat) (p : TaskSetPartition) (b : Nat) :
    Decidable (ImageUploadTask.inByteSpan W c p b) := by
  unfold ImageUploadTask.inByteSpan
  exact inferInstance

theorem image_sub_eval {W c H : Nat} {p : TaskSetPartition}
    (hwc : 0 < W * c) (hWM : H * W < M32) (hM : H * W * c < M)
    (hord : p.start ≤ p.stop) (hin : p.stop ≤ H) :
    ImageUploadTask.subOffset W c p.start = p.start * W * c ∧
    ImageUploadTask.subLength W c p.start p.stop = (p.stop - p.start) * W * c := by
  have hW : 0 < W := by
    rcases Nat.eq_zero_or_pos W with h | h
    · subst h; simp at hwc
    · exact h
  have hsH : p.start ≤ H := le_trans hord hin
  have hsW : p.start * W < M32 :=
    lt_of_le_of_lt (Nat.mul_le_mul_right W hsH) hWM
  have hstop32 : p.stop < M32 :=
    lt_of_le_of_lt (le_trans hin (Nat.le_mul_of_pos_right H hW)) hWM
  have hdW : (p.stop - p.start) * W < M32 :=
    lt_of_le_of_lt (Nat.mul_le_mul_right W (le_trans (Nat.sub_le _ _) hin)) hWM
  have hsWc : p.start * W * c < M :=
    lt_of_le_of_lt (Nat.mul_le_mul_right c (Nat.mul_le_mul_right W hsH)) hM
  have hdWc : (p.stop - p.start) * W * c < M :=
    lt_of_le_of_lt
      (Nat.mul_le_mul_right c (Nat.mul_le_mul_right W (le_trans (Nat.sub_le _ _) hin))) hM
  constructor
  · unfold ImageUploadTask.subOffset
    rw [umul32_of_lt hsW, umul_of_lt hsWc]
  · unfold ImageUploadTask.subLength
    rw [usub32_of_le hord hstop32, umul32_of_lt hdW, umul_of_lt hdWc]

theorem inByteSpan_iff_row {W c H : Nat} {p : TaskSetPartition} {b : Nat}
    (hwc : 0 < W * c) (hWM : H * W < M32) (hM : H * W * c < M)
    (hord : p.start ≤ p.stop) (hin : p.stop ≤ H) :
    ImageUploadTask.inByteSpan W c p b ↔
      (p.start ≤ b / (W * c) ∧ b / (W * c) < p.stop) := by
  obtain ⟨ho, hl⟩ := image_sub_eval hwc hWM hM hord hin
  unfold ImageUploadTask.inByteSpan
  rw [ho, hl]
  have hsum : p.start * W * c + (p.stop - p.start) * W * c = p.stop * (W * c) := by
    have h1 : p.start * W * c = p.start * (W * c) := by ring
    have h2 : (p.stop - p.start) * W * c = (p.stop - p.start) * (W * c) := by ring
    rw [h1, h2, ← Nat.add_mul, Nat.add_sub_cancel' hord]
  have hoff : p.start * W * c = p.start * (W * c) := by ring
  rw [hsum, hoff]
  constructor
  · rintro ⟨h1, h2⟩
    exact ⟨(Nat.le_div_iff_mul_le hwc).mpr h1, (Nat.div_lt_iff_lt_mul hwc).mpr h2⟩
  · rintro ⟨h1, h2⟩
    exact ⟨(Nat.le_div_iff_mul_le hwc).mp h1, (Nat.div_lt_iff_lt_mul hwc).mp h2⟩

/-- C7: an `ImageUploadTask` over an image of height `H`, width `W` and channel
count `c` has total range `m_SetSize = H` rows and minimum granted range
`m_MinRange = min(150, H)` rows; the partition `[start, stop)` reads exactly
the contiguous row-major byte sub-span at offset `start * W * c` of length
`(stop − start) * W * c`; and any family of disjoint row partitions covering
`[0, H)` maps to byte sub-spans that cover `[0, H*W*c)` disjointly: every byte
of the source span lies in exactly one partition's sub-span. -/
theorem imageUpload_partition_rows_to_bytes
    {dataLen W H c destinationLayout : Nat} {P : List TaskSetPartition}
    (hwc : 0 < W * c) (hWM : H * W < M32) (hM : H * W * c < M)
    (hin : ∀ p ∈ P, p.stop ≤ H) (hord : ∀ p ∈ P, p.start ≤ p.stop)
    (hcov : ∀ r, r < H → P.countP (fun p => decide (p.start ≤ r ∧ r < p.stop)) = 1) :
    (ImageUploadTask.construct dataLen W H destinationLayout c).m_SetSize = H ∧
    (ImageUploadTask.construct dataLen W H destinationLayout c).m_MinRange = min 150 H ∧
    (∀ p ∈ P, ImageUploadTask.subOffset W c p.start = p.start * W * c ∧
      ImageUploadTask.subLength W c p.start p.stop = (p.stop - p.start) * W * c) ∧
    ∀ b, b < H * W * c →
      P.countP (fun p => decide (ImageUploadTask.inByteSpan W c p b)) = 1 := by
  refine ⟨rfl, rfl, ?_, ?_⟩
  · intro p hp
    exact image_sub_eval hwc hWM hM (hord p hp) (hin p hp)
  · intro b hb
    have hbwc : b < H * (W * c) := by rw [← Nat.mul_assoc]; exact hb
    have hr : b / (W * c) < H := (Nat.div_lt_iff_lt_mul hwc).mpr hbwc
    have hcongr : P.countP (fun p => decide (ImageUploadTask.inByteSpan W c p b))
        = P.countP (fun p =>
            decide (p.start ≤ b / (W * c) ∧ b / (W * c) < p.stop)) := by
      apply List.countP_congr
      intro p hp
      simp only [decide_eq_true_eq]
      exact inByteSpan_iff_row hwc hWM hM (hord p hp) (hin p hp)
    rw [hcongr]
    exact hcov _ hr

set_option maxRecDepth 100000 in
theorem imageUpload_partition_rows_to_bytes_witness :
    (0 < 512 * 1 ∧ 300 * 512 < M32 ∧ 300 * 512 * 1 < M) ∧
    (ImageUploadTask.construct 153600 512 300 5 1).m_SetSize = 300 ∧
    (ImageUploadTask.construct 153600 512 300 5 1).m_MinRange = min 150 300 ∧
    ∀ b, b < 300 * 512 * 1 →
      ([TaskSetPartition.mk 0 150, TaskSetPartition.mk 150 300].countP
        (fun p => decide (ImageUploadTask.inByteSpan 512 1 p b))) = 1 :=
  ⟨⟨by decide, by decide, by decide⟩,
    (@imageUpload_partition_rows_to_bytes 153600 512 300 1 5
      [TaskSetPartition.mk 0 150, TaskSetPartition.mk 150 300]
      (by decide) (by decide) (by decide) (by decide) (by decide) (by decide)).1,
    (@imageUpload_partition_rows_to_bytes 153600 512 300 1 5
      [TaskSetPartition.mk 0 150, TaskSetPartition.mk 150 300]
      (by decide) (by decide) (by decide) (by decide) (by decide) (by decide)).2.1,
    (@imageUpload_partition_rows_to_bytes 153600 512 300 1 5
      [TaskSetPartition.mk 0 150, TaskSetPartition.mk 150 300]
      (by decide) (by decide) (by decide) (by decide) (by decide) (by decide)).2.2.2⟩

theorem fenceWaitResult_ignored_witness :
    BufferUploadTask.submitAndWait VkResult.success VkResult.timeout = Except.ok () ∧
    VkResult.errorDeviceLost ≠ VkResult.success ∧
    BufferUploadTask.submitAndWait VkResult.errorDeviceLost VkResult.timeout =
      Except.error "Failed to submit buffer copy: \x7b\x7d" :=
  ⟨(fenceWaitResult_ignored VkResult.timeout).1, by decide,
    (fenceWaitResult_ignored VkResult.timeout).2.2 VkResult.errorDeviceLost (by decide)⟩
